import Mathlib

/-!
Shallow embedding of the PR Notification Pipeline of the repository
`agentic-cicd` (files `src/ai_email_agent.py` and
`src/github_webhook_handler.py`), together with theorems settling the
frozen claims about it.

Modelling conventions, applied throughout:
* Python `str` becomes `String`; a dictionary key that may be absent
  becomes an `Option` field (`none` = key absent).  Python truthiness of
  an optional string (`None` and `""` are falsy) is `pyTruthyStr`.
* Library calls with effects are parameters of the embedded functions:
  `hmac.new(...).hexdigest()` is a function argument `hmacHex`,
  `json.loads` on the request body is a function argument `jsonParse`,
  `datetime.utcnow()` is a string argument `now`, the SMTP session is an
  `SMTPBehavior` argument, and the Azure OpenAI chat completion call is
  an `AIOutcome` argument (it either raises, or returns text whose
  `json.loads` result is recorded directly as `Option Json`).
* Raising `HTTPException` becomes returning `WebhookResponse.httpError`;
  a caught exception becomes the branch the `except` clause takes.
-/

/-- Python truthiness of an optional string: `None` and `""` are falsy,
every other string is truthy. -/
def pyTruthyStr : Option String → Bool
  | none => false
  | some s => s ≠ ""

/-- Python `a or b` on optional strings: `b` when `a` is falsy, else `a`. -/
def pyOrStr (a b : Option String) : Option String :=
  if pyTruthyStr a then a else b

/-- Python `s.split(sep, 1)` on a character list, as used for
`signature_header.split('=', 1)`: `none` when the separator does not occur
(so tuple unpacking of the one-element result raises `ValueError`), else
the part before the first separator and the rest. -/
def splitOnce (sep : Char) : List Char → Option (List Char × List Char)
  | [] => none
  | c :: cs =>
    if c = sep then some ([], cs)
    else
      match splitOnce sep cs with
      | none => none
      | some (a, b) => some (c :: a, b)

/-- JSON values, the result type of Python's `json.loads`. -/
inductive Json where
  | jnull : Json
  | jbool (b : Bool) : Json
  | jnum (n : Int) : Json
  | jstr (s : String) : Json
  | jarr (xs : List Json) : Json
  | jobj (kvs : List (String × Json)) : Json

/-- Whether a JSON value is the string `s` (Python `==` between a `str`
and a non-`str` JSON value is `False`). -/
def jsonIsStr (s : String) : Json → Bool
  | .jstr t => s = t
  | _ => false

/-- Whether character list `n` occurs at the head of `h`. -/
def charsLeading : List Char → List Char → Bool
  | [], _ => true
  | _ :: _, [] => false
  | a :: as, b :: bs => a = b && charsLeading as bs

/-- Whether character list `n` occurs contiguously anywhere in `h`. -/
def charsSub (n : List Char) : List Char → Bool
  | [] => charsLeading n []
  | c :: cs => charsLeading n (c :: cs) || charsSub n cs

/-- Python `in` on JSON values, the semantics of
`'subject' not in email_content` in `generate_pr_email_content`:
key membership for a dict, element equality for a list, substring test
for a string; `none` models the `TypeError` Python raises on the other
types (caught only by the outer `except Exception`). -/
def pyContains (key : String) : Json → Option Bool
  | .jobj kvs => some (kvs.any fun kv => kv.1 = key)
  | .jarr xs => some (xs.any (jsonIsStr key))
  | .jstr s => some (charsSub key.toList s.toList)
  | _ => none

/-- Association-list lookup, an observer for stating claims about the
keys of a returned JSON object. -/
def assocGet (key : String) : List (String × Json) → Option Json
  | [] => none
  | kv :: rest => if kv.1 = key then some kv.2 else assocGet key rest

/-- The value of key `key` of a JSON object (observer for the claims). -/
def jsonGet (key : String) : Json → Option Json
  | .jobj kvs => assocGet key kvs
  | _ => none

/-- The configuration the `AIEmailAgent` constructor reads from the
environment (`src/ai_email_agent.py`, `__init__`): only the fields the
embedded methods use.  Fields read with a default are plain strings,
fields read with `os.getenv(name)` alone are optional. -/
structure AgentConfig where
  smtp_server : String
  smtp_port : Nat
  email_username : Option String
  email_password : Option String
  from_email : Option String
  project_name : String
  project_owner : String
  owner_email : Option String

/-- The `pr_data` dictionary handed to the agent: the keys the agent
reads with `pr_data.get(...)`.  `none` models an absent key. -/
structure PRInput where
  title : Option String
  number : Option Int
  author : Option String
  url : Option String
  description : Option String
  branch_from : Option String
  branch_to : Option String
  files_changed : Option (List String)

/-- The `{"subject": ..., "body": ...}` dictionary the fallback builds. -/
structure EmailContent where
  subject : String
  body : String

/-- The dictionary as the JSON object it is, for stating what
`generate_pr_email_content` (whose Python return value is dynamically
typed) returns on its two paths. -/
def EmailContent.toJson (e : EmailContent) : Json :=
  .jobj [("subject", .jstr e.subject), ("body", .jstr e.body)]

/-- `AIEmailAgent._generate_fallback_email` (src/ai_email_agent.py lines
157-209): the deterministic fallback content.  `now` is the value of
`datetime.utcnow().strftime('%Y-%m-%d %H:%M:%S')` at the call. -/
def _generate_fallback_email (cfg : AgentConfig) (pr_data : PRInput) (now : String) :
    EmailContent :=
  let pr_title := pr_data.title.getD "New Pull Request"
  let pr_number := match pr_data.number with
    | some n => toString n
    | none => "Unknown"
  let pr_author := pr_data.author.getD "Unknown Author"
  let pr_url := pr_data.url.getD "#"
  let subject := "🔔 New PR #" ++ pr_number ++ ": " ++ pr_title
  let body :=
    "\n        <html>\n        <body>\n            <h2>🚀 New Pull Request Notification</h2>\n            \n            <p>Hello "
    ++ cfg.project_owner
    ++ ",</p>\n            \n            <p>A new pull request has been created for the <strong>"
    ++ cfg.project_name
    ++ "</strong> project:</p>\n            \n            <div style=\"background: #f8f9fa; padding: 15px; border-radius: 8px; margin: 15px 0;\">\n                <h3>📋 PR Details</h3>\n                <ul>\n                    <li><strong>Title:</strong> "
    ++ pr_title
    ++ "</li>\n                    <li><strong>PR Number:</strong> #"
    ++ pr_number
    ++ "</li>\n                    <li><strong>Author:</strong> "
    ++ pr_author
    ++ "</li>\n                    <li><strong>From:</strong> "
    ++ pr_data.branch_from.getD "feature-branch"
    ++ "</li>\n                    <li><strong>To:</strong> "
    ++ pr_data.branch_to.getD "main"
    ++ "</li>\n                </ul>\n            </div>\n            \n            <p><strong>Description:</strong><br>\n            "
    ++ pr_data.description.getD "No description provided"
    ++ "</p>\n            \n            <p style=\"text-align: center; margin: 20px 0;\">\n                <a href=\""
    ++ pr_url
    ++ "\" style=\"background: #1f77b4; color: white; padding: 10px 20px; text-decoration: none; border-radius: 5px;\">\n                    👀 Review Pull Request\n                </a>\n            </p>\n            \n            <p>Please review this pull request at your earliest convenience.</p>\n            \n            <p>Best regards,<br>\n            AI Agent - "
    ++ cfg.project_name
    ++ "</p>\n            \n            <hr>\n            <p style=\"font-size: 12px; color: #666;\">\n                This email was automatically generated by the AI Email Agent.\n                Generated at: "
    ++ now
    ++ " UTC\n            </p>\n        </body>\n        </html>\n        "
  { subject := subject, body := body }

/-- Outcome of the Azure OpenAI chat-completion call inside
`generate_pr_email_content`: the call raises, or it returns text whose
`json.loads` result is recorded directly (`none` = `JSONDecodeError`, or
a non-string content object making `json.loads` raise). -/
inductive AIOutcome where
  | raised : AIOutcome
  | responded (parsed : Option Json) : AIOutcome

/-- `AIEmailAgent.generate_pr_email_content` (src/ai_email_agent.py lines
70-155).  The prompt construction cannot fail; the backend call is the
`ai` argument.  After `json.loads` succeeds, the code checks
`'subject' not in email_content or 'body' not in email_content`: a
`ValueError`/`JSONDecodeError` there takes the inner `except` to the
fallback, a `TypeError` (membership on a non-container) escapes to the
outer `except Exception`, which also returns the fallback.  Only when
both membership tests pass is the parsed value returned as is. -/
def generate_pr_email_content (cfg : AgentConfig) (ai : AIOutcome) (pr_data : PRInput)
    (now : String) : Json :=
  match ai with
  | .raised => (_generate_fallback_email cfg pr_data now).toJson
  | .responded none => (_generate_fallback_email cfg pr_data now).toJson
  | .responded (some j) =>
    match pyContains "subject" j with
    | some true =>
      match pyContains "body" j with
      | some true => j
      | _ => (_generate_fallback_email cfg pr_data now).toJson
    | _ => (_generate_fallback_email cfg pr_data now).toJson

/-- Behaviour of the one SMTP session `send_email` opens: either every
step (connect, starttls, login, sendmail, quit) completes, or some step
raises (all raises land in the same `except` clause). -/
inductive SMTPBehavior where
  | ok : SMTPBehavior
  | raises : SMTPBehavior

/-- Result of `send_email`, extended with whether the call reached
`smtplib.SMTP(...)`, i.e. attempted to open a mail-transport connection. -/
structure SendOutcome where
  success : Bool
  attemptedConnection : Bool
deriving DecidableEq

/-- `AIEmailAgent.send_email` (src/ai_email_agent.py lines 211-253):
`recipient = to_email or self.owner_email; if not recipient: return False`
happens before any SMTP object is created; afterwards one session runs
and any exception yields `False`. -/
def send_email (cfg : AgentConfig) (smtp : SMTPBehavior) (subject body : String)
    (to_email : Option String) : SendOutcome :=
  let recipient := pyOrStr to_email cfg.owner_email
  if pyTruthyStr recipient then
    match smtp with
    | .ok => { success := true, attemptedConnection := true }
    | .raises => { success := false, attemptedConnection := true }
  else
    { success := false, attemptedConnection := false }

/-- `GitHubWebhookHandler.verify_signature` (src/github_webhook_handler.py
lines 28-66).  `secret` is `self.webhook_secret` (`os.getenv`, so `none`
when unset; an empty string is falsy like `None`).  `hmacHex secret body`
abstracts `hmac.new(secret.encode('utf-8'), body, hashlib.sha256).hexdigest()`;
`hmac.compare_digest` is functionally string equality.  A header without
`'='` makes the tuple unpacking raise `ValueError`, caught as `False`. -/
def verify_signature (hmacHex : String → String → String) (secret : Option String)
    (payload_body : String) (signature_header : String) : Bool :=
  if ¬ pyTruthyStr secret then true
  else if signature_header = "" then false
  else
    match secret with
    | none => false
    | some sec =>
      match splitOnce '=' signature_header.toList with
      | none => false
      | some (algChars, sigChars) =>
        if String.mk algChars ≠ "sha256" then false
        else String.mk sigChars = hmacHex sec payload_body

/-- `payload.get('user', ...)` object: the one field read from it. -/
structure WPUser where
  login : Option String

/-- A `head`/`base` object: the one field read from it. -/
structure WPRef where
  ref : Option String

/-- The `pull_request` object of a webhook payload: exactly the keys
`extract_pr_data` reads. -/
structure WPPull where
  title : Option String
  number : Option Int
  user : Option WPUser
  html_url : Option String
  body : Option String
  head : Option WPRef
  base : Option WPRef
  created_at : Option String
  updated_at : Option String

/-- The `repository` object of a webhook payload: the keys read. -/
structure WPRepo where
  name : Option String
  html_url : Option String

/-- A parsed webhook payload, restricted to the keys `extract_pr_data`
reads (`none` = key absent). -/
structure WebhookPayload where
  action : Option String
  pull_request : Option WPPull
  repository : Option WPRepo

/-- An empty `{}` dictionary in place of a missing `pull_request`. -/
def emptyWPPull : WPPull := ⟨none, none, none, none, none, none, none, none, none⟩

/-- An empty `{}` dictionary in place of a missing `user`. -/
def emptyWPUser : WPUser := ⟨none⟩

/-- An empty `{}` dictionary in place of a missing `head`/`base`. -/
def emptyWPRef : WPRef := ⟨none⟩

/-- An empty `{}` dictionary in place of a missing `repository`. -/
def emptyWPRepo : WPRepo := ⟨none, none⟩

/-- The normalized record `extract_pr_data` builds (the `pr_data`
dictionary of src/github_webhook_handler.py lines 88-106). -/
structure PRData where
  title : String
  number : Option Int
  author : String
  url : String
  description : String
  branch_from : String
  branch_to : String
  repository_name : String
  repository_url : String
  created_at : Option String
  updated_at : Option String
  action : String
  files_changed : List String
  webhook_timestamp : String
  event_type : String

/-- `GitHubWebhookHandler.extract_pr_data` (src/github_webhook_handler.py
lines 68-113).  `now` is `datetime.utcnow().isoformat()` at the call.
Nothing in the body after the action test can raise, so the
`except Exception` branch (return `None`) is unreachable. -/
def extract_pr_data (webhook_payload : WebhookPayload) (now : String) : Option PRData :=
  match webhook_payload.action with
  | none => none
  | some action =>
    if action = "opened" ∨ action = "reopened" then
      let pr := webhook_payload.pull_request.getD emptyWPPull
      let repository := webhook_payload.repository.getD emptyWPRepo
      some
        { title := pr.title.getD "Untitled PR"
          number := pr.number
          author := (pr.user.getD emptyWPUser).login.getD "Unknown"
          url := pr.html_url.getD ""
          description := pr.body.getD "No description provided"
          branch_from := (pr.head.getD emptyWPRef).ref.getD "unknown-branch"
          branch_to := (pr.base.getD emptyWPRef).ref.getD "main"
          repository_name := repository.name.getD "Unknown Repository"
          repository_url := repository.html_url.getD ""
          created_at := pr.created_at
          updated_at := pr.updated_at
          action := action
          files_changed := []
          webhook_timestamp := now
          event_type := "pull_request" }
    else none

/-- A JSON 200 response body of `handle_webhook`; the `pr_number` and
`pr_title` keys exist only on the queued-PR response (`none` = key
absent; `pr_number`'s value is itself optional because the payload's
`number` may be missing). -/
structure OkBody where
  status : String
  message : String
  pr_number : Option (Option Int)
  pr_title : Option String
  timestamp : String
deriving DecidableEq

/-- What `handle_webhook` hands back to FastAPI: a 200 JSON body, or an
`HTTPException` with a status code and detail. -/
inductive WebhookResponse where
  | ok (body : OkBody) : WebhookResponse
  | httpError (code : Nat) (detail : String) : WebhookResponse
deriving DecidableEq

/-- The observable outcome of one `handle_webhook` call: the response,
whether `extract_pr_data` was invoked, and whether a background
notification task (content generation + delivery) was scheduled. -/
structure HandlerOutcome where
  response : WebhookResponse
  extractorInvoked : Bool
  backgroundScheduled : Bool

/-- `GitHubWebhookHandler.handle_webhook` (src/github_webhook_handler.py
lines 115-188).  `jsonParse` abstracts `json.loads` on the decoded body
(`none` = `JSONDecodeError`, answered with HTTP 400); `sigHeader` and
`eventType` are the `X-Hub-Signature-256` and `X-GitHub-Event` headers,
both defaulted to `""` by `request.headers.get` when absent; `now` is
the value of each `datetime.utcnow().isoformat()` call (time held
fixed within the request).  Signature verification runs first: its
failure raises `HTTPException(403)` before the body is ever parsed. -/
def handle_webhook (hmacHex : String → String → String)
    (jsonParse : String → Option WebhookPayload) (secret : Option String)
    (sigHeader eventType payload_body now : String) : HandlerOutcome :=
  if ¬ verify_signature hmacHex secret payload_body sigHeader then
    { response := .httpError 403 "Invalid signature"
      extractorInvoked := false, backgroundScheduled := false }
  else
    match jsonParse payload_body with
    | none =>
      { response := .httpError 400 "Invalid JSON payload"
        extractorInvoked := false, backgroundScheduled := false }
    | some webhook_payload =>
      if eventType = "pull_request" then
        match extract_pr_data webhook_payload now with
        | some pr_data =>
          { response := .ok
              { status := "success"
                message := "PR notification queued for processing"
                pr_number := some pr_data.number
                pr_title := some pr_data.title
                timestamp := now }
            extractorInvoked := true, backgroundScheduled := true }
        | none =>
          { response := .ok
              { status := "ignored"
                message := "PR event not relevant for notification"
                pr_number := none, pr_title := none, timestamp := now }
            extractorInvoked := true, backgroundScheduled := false }
      else if eventType = "ping" then
        { response := .ok
            { status := "success"
              message := "Webhook endpoint is working"
              pr_number := none, pr_title := none, timestamp := now }
          extractorInvoked := false, backgroundScheduled := false }
      else
        { response := .ok
            { status := "ignored"
              message := "Event type " ++ eventType ++ " not handled"
              pr_number := none, pr_title := none, timestamp := now }
          extractorInvoked := false, backgroundScheduled := false }

/-- The payload's PR title as present or absent input (observer). -/
def payloadTitle (p : WebhookPayload) : Option String :=
  p.pull_request.bind fun pr => pr.title

/-- The payload's PR author (`pull_request.user.login`) as present or
absent input (observer). -/
def payloadAuthor (p : WebhookPayload) : Option String :=
  (p.pull_request.bind fun pr => pr.user).bind fun u => u.login

/-- The payload's source branch (`pull_request.head.ref`) as present or
absent input (observer). -/
def payloadSourceBranch (p : WebhookPayload) : Option String :=
  (p.pull_request.bind fun pr => pr.head).bind fun r => r.ref

/-- The payload's target branch (`pull_request.base.ref`) as present or
absent input (observer). -/
def payloadTargetBranch (p : WebhookPayload) : Option String :=
  (p.pull_request.bind fun pr => pr.base).bind fun r => r.ref

/-- A concrete digest function standing in for HMAC-SHA256 in witnesses
(the claims settled here never depend on the digest's value). -/
def hf0 : String → String → String := fun _ _ => ""

/-- A digest function whose value coincides with the digest supplied in
the wrong-algorithm witness, showing the rejection ignores the digest. -/
def hfMatch : String → String → String := fun _ _ => "abc"

/-- A payload with every key absent. -/
def wpEmpty : WebhookPayload := ⟨none, none, none⟩

/-- A payload whose `action` is `"closed"`. -/
def wpClosed : WebhookPayload := ⟨some "closed", none, none⟩

/-- A payload with `action = "opened"` and everything else absent. -/
def wpOpenedEmpty : WebhookPayload := ⟨some "opened", none, none⟩

/-- A parse function under which every body is valid JSON (parsing to
the empty payload). -/
def jpEmpty : String → Option WebhookPayload := fun _ => some wpEmpty

/-- A parse function under which every body is malformed JSON. -/
def jpNone : String → Option WebhookPayload := fun _ => none

/-- A fully populated agent configuration for witnesses. -/
def cfg0 : AgentConfig :=
  { smtp_server := "smtp.gmail.com", smtp_port := 587
    email_username := some "bot@example.com", email_password := some "pw"
    from_email := some "bot@example.com"
    project_name := "Agentic CI/CD Task Manager", project_owner := "Project Owner"
    owner_email := some "owner@example.com" }

/-- An agent configuration with no owner address configured. -/
def cfgNoOwner : AgentConfig :=
  { smtp_server := "smtp.gmail.com", smtp_port := 587
    email_username := some "bot@example.com", email_password := some "pw"
    from_email := some "bot@example.com"
    project_name := "Agentic CI/CD Task Manager", project_owner := "Project Owner"
    owner_email := none }

/-- The PR record of the spec's scenario: PR #42 "Add logging". -/
def pr42 : PRInput :=
  { title := some "Add logging", number := some 42, author := some "alice"
    url := some "https://github.com/example/repo/pull/42"
    description := some "Adds logging", branch_from := some "feature/log"
    branch_to := some "main", files_changed := some [] }

/-- The AI backend returning valid JSON whose `subject` and `body` keys
both carry the empty string. -/
def aiEmptyValues : AIOutcome :=
  .responded (some (.jobj [("subject", .jstr ""), ("body", .jstr "")]))

theorem strToListAppend (a b : String) : (a ++ b).toList = a.toList ++ b.toList := rfl

theorem strMkToList (s : String) : String.mk s.toList = s := rfl

theorem strNeEmptyLeft (a b : String) (h : a ≠ "") : a ++ b ≠ "" := by
  intro hab
  apply h
  have h2 : a.toList ++ b.toList = [] := by
    have := congrArg String.toList hab
    simpa [strToListAppend] using this
  have h3 : a.toList = [] := (List.append_eq_nil.mp h2).1
  have h4 : String.mk a.toList = String.mk [] := by rw [h3]
  simpa [strMkToList] using h4

theorem strNeEmptyRight (a b : String) (h : b ≠ "") : a ++ b ≠ "" := by
  intro hab
  apply h
  have h2 : a.toList ++ b.toList = [] := by
    have := congrArg String.toList hab
    simpa [strToListAppend] using this
  have h3 : b.toList = [] := (List.append_eq_nil.mp h2).2
  have h4 : String.mk b.toList = String.mk [] := by rw [h3]
  simpa [strMkToList] using h4

theorem splitOnce_append (sep : Char) (a rest : List Char) (h : sep ∉ a) :
    splitOnce sep (a ++ sep :: rest) = some (a, rest) := by
  induction a with
  | nil => simp [splitOnce]
  | cons c cs ih =>
    simp only [List.mem_cons, not_or] at h
    simp [splitOnce, Ne.symm, h.1, ih h.2]

theorem fallback_subject_ne_empty (cfg : AgentConfig) (pr : PRInput) (now : String) :
    (_generate_fallback_email cfg pr now).subject ≠ "" := by
  show _ ++ _ ≠ ""
  apply strNeEmptyLeft
  apply strNeEmptyLeft
  apply strNeEmptyLeft
  decide

theorem fallback_body_ne_empty (cfg : AgentConfig) (pr : PRInput) (now : String) :
    (_generate_fallback_email cfg pr now).body ≠ "" := by
  show _ ++ _ ≠ ""
  apply strNeEmptyRight
  decide

/-- C1 (counterexample): on the record with number 42 and title
"Add logging", the fallback subject is not `"New PR #42: Add logging"`
— the code prepends a bell emoji and a space (`subject = f"🔔 New PR
#{pr_number}: {pr_title}"`, src/ai_email_agent.py line 164). -/
theorem fallback_subject_bell_prefix :
    (_generate_fallback_email cfg0 pr42 "2025-01-01 00:00:00").subject =
      "🔔 New PR #42: Add logging" ∧
    (_generate_fallback_email cfg0 pr42 "2025-01-01 00:00:00").subject ≠
      "New PR #42: Add logging" := by
  exact ⟨rfl, by decide⟩

/-- C1 (amended): for every PR record whose `number` and `title` keys
are present, the fallback renders the subject exactly as
`"🔔 New PR #<number>: <title>"`. -/
theorem fallback_subject_format (cfg : AgentConfig) (pr : PRInput) (now : String)
    (n : Int) (t : String) (hn : pr.number = some n) (ht : pr.title = some t) :
    (_generate_fallback_email cfg pr now).subject =
      "🔔 New PR #" ++ toString n ++ ": " ++ t := by
  simp [_generate_fallback_email, hn, ht]

/-- C1 (witness): the amended format at PR #42 "Add logging". -/
theorem fallback_subject_format_witness :
    (_generate_fallback_email cfg0 pr42 "2025-01-01 00:00:00").subject =
      "🔔 New PR #" ++ toString (42 : Int) ++ ": " ++ "Add logging" :=
  fallback_subject_format cfg0 pr42 "2025-01-01 00:00:00" 42 "Add logging" rfl rfl

/-- C4: the fallback rendering is deterministic — two invocations on an
identical PR record, with the generation timestamp held fixed, produce
identical (subject, body) output.  The embedded `_generate_fallback_email`
is a pure function of the configuration, the record and the timestamp:
the source has no other input (no randomness, no external call — the
`datetime.utcnow()` read is the `now` argument, held fixed here). -/
theorem fallback_deterministic (cfg : AgentConfig) (pr1 pr2 : PRInput)
    (now1 now2 : String) (hpr : pr1 = pr2) (hnow : now1 = now2) :
    _generate_fallback_email cfg pr1 now1 = _generate_fallback_email cfg pr2 now2 := by
  rw [hpr, hnow]

/-- C4 (witness): two runs on the PR #42 record with a fixed timestamp. -/
theorem fallback_deterministic_witness :
    _generate_fallback_email cfg0 pr42 "2025-01-01 00:00:00" =
      _generate_fallback_email cfg0 pr42 "2025-01-01 00:00:00" :=
  fallback_deterministic cfg0 pr42 pr42 "2025-01-01 00:00:00" "2025-01-01 00:00:00"
    rfl rfl

/-- C5: for every body and signature header, `verify_signature` returns
true when no shared secret is configured (`webhook_secret` falsy), and
when a secret is configured it returns false whenever the signature
header is absent or empty (an absent header reaches it as `""` via
`request.headers.get('X-Hub-Signature-256', '')`). -/
theorem verify_signature_secret_policy :
    ∀ (hf : String → String → String) (secret : Option String) (body header : String),
      (pyTruthyStr secret = false → verify_signature hf secret body header = true) ∧
      (pyTruthyStr secret = true → verify_signature hf secret body "" = false) := by
  intro hf secret body header
  constructor
  · intro h
    simp [verify_signature, h]
  · intro h
    simp [verify_signature, h]

/-- C5 (witness): no secret configured with an arbitrary header, and a
configured secret with an empty header. -/
theorem verify_signature_secret_policy_witness :
    verify_signature hf0 none "body" "sha256=deadbeef" = true ∧
    verify_signature hf0 (some "topsecret") "body" "" = false :=
  ⟨(verify_signature_secret_policy hf0 none "body" "sha256=deadbeef").1 rfl,
   (verify_signature_secret_policy hf0 (some "topsecret") "body" "").2 rfl⟩

/-- C6: with a configured secret, a signature header whose algorithm
component (the part before the first '=') is not "sha256" is rejected
for every body and every digest value. -/
theorem verify_signature_wrong_algorithm (hf : String → String → String)
    (sec body alg rest : String) (hsec : sec ≠ "") (halg : '=' ∉ alg.toList)
    (hne : alg ≠ "sha256") :
    verify_signature hf (some sec) body (alg ++ "=" ++ rest) = false := by
  have htr : pyTruthyStr (some sec) = true := by simp [pyTruthyStr, hsec]
  have hheader : (alg ++ "=" ++ rest) ≠ "" :=
    strNeEmptyLeft _ _ (strNeEmptyRight alg "=" (by decide))
  have hsplit : splitOnce '=' (alg.data ++ '=' :: rest.data) =
      some (alg.data, rest.data) := splitOnce_append '=' alg.data rest.data halg
  have hmkeq : ({ data := alg.data } : String) = alg := rfl
  have ht : (alg ++ "=" ++ rest).toList = alg.data ++ '=' :: rest.data := by
    show (alg.data ++ ['=']) ++ rest.data = alg.data ++ '=' :: rest.data
    rw [List.append_assoc]
    rfl
  simp only [verify_signature, htr, not_true_eq_false, if_false]
  rw [if_neg hheader, ht, hsplit]
  show (if ({ data := alg.data } : String) ≠ "sha256" then false
    else decide (({ data := rest.data } : String) = hf sec body)) = false
  rw [if_pos]
  rw [hmkeq]
  exact hne

/-- C6 (witness): header `"sha1=abc"` against a configured secret, under
a digest function that does produce `"abc"` — rejected regardless. -/
theorem verify_signature_wrong_algorithm_witness :
    verify_signature hfMatch (some "topsecret") "body" ("sha1" ++ "=" ++ "abc") = false :=
  verify_signature_wrong_algorithm hfMatch "topsecret" "body" "sha1" "abc"
    (by decide) (by decide) (by decide)

/-- C7: every payload whose `action` is neither "opened" nor "reopened"
(an absent `action` included) extracts to no record — the normal
"ignored" outcome, not an error. -/
theorem extract_irrelevant_action_none (p : WebhookPayload) (now : String)
    (h1 : p.action ≠ some "opened") (h2 : p.action ≠ some "reopened") :
    extract_pr_data p now = none := by
  unfold extract_pr_data
  cases ha : p.action with
  | none => rfl
  | some a =>
    have hcond : ¬ (a = "opened" ∨ a = "reopened") := by
      rintro (rfl | rfl)
      · exact h1 ha
      · exact h2 ha
    simp [hcond]

/-- C7 (witness): a `"closed"` action extracts to no record. -/
theorem extract_irrelevant_action_none_witness :
    extract_pr_data wpClosed "2025-01-01T00:00:00" = none :=
  extract_irrelevant_action_none wpClosed "2025-01-01T00:00:00" (by decide) (by decide)

/-- C8: on every payload with `action = "opened"` the extractor returns
a record, whose `title`, `author`, `branch_from` and `branch_to` equal
the corresponding payload fields when present and the documented
defaults when absent (missing title → "Untitled PR", missing author →
"Unknown", missing source branch → "unknown-branch", missing target
branch → "main"). -/
theorem extract_opened_fields (p : WebhookPayload) (now : String)
    (h : p.action = some "opened") :
    (extract_pr_data p now).isSome = true ∧
    (extract_pr_data p now).map PRData.title =
      some ((payloadTitle p).getD "Untitled PR") ∧
    (extract_pr_data p now).map PRData.author =
      some ((payloadAuthor p).getD "Unknown") ∧
    (extract_pr_data p now).map PRData.branch_from =
      some ((payloadSourceBranch p).getD "unknown-branch") ∧
    (extract_pr_data p now).map PRData.branch_to =
      some ((payloadTargetBranch p).getD "main") := by
  unfold extract_pr_data
  rw [h]
  simp only [if_pos (Or.inl rfl), Option.isSome_some, Option.map_some]
  refine ⟨rfl, ?_, ?_, ?_, ?_⟩
  · cases hpr : p.pull_request with
    | none => simp [payloadTitle, hpr, emptyWPPull]
    | some pr => simp [payloadTitle, hpr]
  · cases hpr : p.pull_request with
    | none => simp [payloadAuthor, hpr, emptyWPPull, emptyWPUser]
    | some pr =>
      cases hu : pr.user with
      | none => simp [payloadAuthor, hpr, hu, emptyWPUser]
      | some u => simp [payloadAuthor, hpr, hu]
  · cases hpr : p.pull_request with
    | none => simp [payloadSourceBranch, hpr, emptyWPPull, emptyWPRef]
    | some pr =>
      cases hh : pr.head with
      | none => simp [payloadSourceBranch, hpr, hh, emptyWPRef]
      | some r => simp [payloadSourceBranch, hpr, hh]
  · cases hpr : p.pull_request with
    | none => simp [payloadTargetBranch, hpr, emptyWPPull, emptyWPRef]
    | some pr =>
      cases hb : pr.base with
      | none => simp [payloadTargetBranch, hpr, hb, emptyWPRef]
      | some r => simp [payloadTargetBranch, hpr, hb]

/-- C8 (witness): a structurally empty `"opened"` payload extracts to a
record carrying every documented default. -/
theorem extract_opened_fields_witness :
    (extract_pr_data wpOpenedEmpty "2025-01-01T00:00:00").isSome = true ∧
    (extract_pr_data wpOpenedEmpty "2025-01-01T00:00:00").map PRData.title =
      some ((payloadTitle wpOpenedEmpty).getD "Untitled PR") ∧
    (extract_pr_data wpOpenedEmpty "2025-01-01T00:00:00").map PRData.author =
      some ((payloadAuthor wpOpenedEmpty).getD "Unknown") ∧
    (extract_pr_data wpOpenedEmpty "2025-01-01T00:00:00").map PRData.branch_from =
      some ((payloadSourceBranch wpOpenedEmpty).getD "unknown-branch") ∧
    (extract_pr_data wpOpenedEmpty "2025-01-01T00:00:00").map PRData.branch_to =
      some ((payloadTargetBranch wpOpenedEmpty).getD "main") :=
  extract_opened_fields wpOpenedEmpty "2025-01-01T00:00:00" rfl

/-- C9: when the recipient argument is absent or empty and the
configured owner address is absent or empty, `send_email` returns false
without attempting a mail-transport connection, whatever the subject,
body and transport would have done. -/
theorem send_email_no_recipient (cfg : AgentConfig) (smtp : SMTPBehavior)
    (subject body : String) (to_email : Option String)
    (h1 : pyTruthyStr to_email = false) (h2 : pyTruthyStr cfg.owner_email = false) :
    send_email cfg smtp subject body to_email =
      { success := false, attemptedConnection := false } := by
  simp [send_email, pyOrStr, h1, h2]

/-- C9 (witness): no argument and no configured owner address. -/
theorem send_email_no_recipient_witness :
    send_email cfgNoOwner .ok "subject" "body" none =
      { success := false, attemptedConnection := false } :=
  send_email_no_recipient cfgNoOwner .ok "subject" "body" none rfl rfl

/-- C2 (counterexample): a `ping` request whose body is not valid JSON,
with signature verification passing (no secret configured), is answered
with the HTTP 400 malformed-JSON rejection, not a success
acknowledgment — `json.loads` runs before the event-type dispatch. -/
theorem handle_webhook_ping_malformed_json :
    verify_signature hf0 none "not json" "" = true ∧
    (handle_webhook hf0 jpNone none "" "ping" "not json" "ts").response =
      .httpError 400 "Invalid JSON payload" :=
  ⟨rfl, rfl⟩

/-- C2 (amended): a `ping` request that passes signature verification
never invokes the Event Extractor and never schedules generation or
delivery; it is acknowledged with success when its body parses as JSON,
and rejected with HTTP 400 when it does not. -/
theorem handle_webhook_ping_contract (hf : String → String → String)
    (jp : String → Option WebhookPayload) (secret : Option String)
    (sigHeader payload_body now : String)
    (hver : verify_signature hf secret payload_body sigHeader = true) :
    (handle_webhook hf jp secret sigHeader "ping" payload_body now).extractorInvoked
        = false ∧
    (handle_webhook hf jp secret sigHeader "ping" payload_body now).backgroundScheduled
        = false ∧
    (∀ p, jp payload_body = some p →
      (handle_webhook hf jp secret sigHeader "ping" payload_body now).response =
        .ok { status := "success", message := "Webhook endpoint is working"
              pr_number := none, pr_title := none, timestamp := now }) ∧
    (jp payload_body = none →
      (handle_webhook hf jp secret sigHeader "ping" payload_body now).response =
        .httpError 400 "Invalid JSON payload") := by
  refine ⟨?_, ?_, ?_, ?_⟩
  · cases hj : jp payload_body with
    | none => simp [handle_webhook, hver, hj]
    | some p => simp [handle_webhook, hver, hj]
  · cases hj : jp payload_body with
    | none => simp [handle_webhook, hver, hj]
    | some p => simp [handle_webhook, hver, hj]
  · intro p hj
    simp [handle_webhook, hver, hj]
  · intro hj
    simp [handle_webhook, hver, hj]

/-- C2 (witness): a ping with a JSON body, no secret configured. -/
theorem handle_webhook_ping_contract_witness :
    (handle_webhook hf0 jpEmpty none "" "ping" "a json body" "ts").extractorInvoked = false ∧
    (handle_webhook hf0 jpEmpty none "" "ping" "a json body" "ts").backgroundScheduled = false ∧
    (handle_webhook hf0 jpEmpty none "" "ping" "a json body" "ts").response =
      .ok { status := "success", message := "Webhook endpoint is working"
            pr_number := none, pr_title := none, timestamp := "ts" } := by
  have h := handle_webhook_ping_contract hf0 jpEmpty none "" "a json body" "ts" rfl
  exact ⟨h.1, h.2.1, h.2.2.1 wpEmpty rfl⟩

/-- C3 (counterexample): when the AI backend returns the valid JSON
object `{"subject": "", "body": ""}`, `generate_pr_email_content`
returns it unchanged — the result's `subject` value is the empty
string, so the claim's "non-empty string values" fails for the
valid-JSON backend outcome. -/
theorem generate_passthrough_empty_values :
    generate_pr_email_content cfg0 aiEmptyValues pr42 "ts" =
      .jobj [("subject", .jstr ""), ("body", .jstr "")] ∧
    jsonGet "subject" (generate_pr_email_content cfg0 aiEmptyValues pr42 "ts") =
      some (.jstr "") :=
  ⟨rfl, rfl⟩

/-- C3 (amended): `generate_pr_email_content` always returns (it is a
total function of the backend outcome): when the backend raises, or its
text fails to parse as JSON, or the parsed value fails the membership
check for `subject` or `body`, the result is the deterministic fallback,
whose `subject` and `body` are non-empty strings; when the parsed value
passes both membership checks, the result is exactly that value, with
whatever `subject`/`body` values the backend supplied. -/
theorem generate_pr_email_contract (cfg : AgentConfig) (ai : AIOutcome)
    (pr : PRInput) (now : String) :
    (generate_pr_email_content cfg ai pr now =
        (_generate_fallback_email cfg pr now).toJson ∧
      (_generate_fallback_email cfg pr now).subject ≠ "" ∧
      (_generate_fallback_email cfg pr now).body ≠ "") ∨
    (∃ j, ai = .responded (some j) ∧ pyContains "subject" j = some true ∧
      pyContains "body" j = some true ∧ generate_pr_email_content cfg ai pr now = j) := by
  cases ai with
  | raised =>
    exact Or.inl ⟨rfl, fallback_subject_ne_empty cfg pr now,
      fallback_body_ne_empty cfg pr now⟩
  | responded parsed =>
    cases parsed with
    | none =>
      exact Or.inl ⟨rfl, fallback_subject_ne_empty cfg pr now,
        fallback_body_ne_empty cfg pr now⟩
    | some j =>
      cases hs : pyContains "subject" j with
      | none =>
        refine Or.inl ⟨?_, fallback_subject_ne_empty cfg pr now,
          fallback_body_ne_empty cfg pr now⟩
        simp [generate_pr_email_content, hs]
      | some bs =>
        cases bs with
        | false =>
          refine Or.inl ⟨?_, fallback_subject_ne_empty cfg pr now,
            fallback_body_ne_empty cfg pr now⟩
          simp [generate_pr_email_content, hs]
        | true =>
          cases hb : pyContains "body" j with
          | none =>
            refine Or.inl ⟨?_, fallback_subject_ne_empty cfg pr now,
              fallback_body_ne_empty cfg pr now⟩
            simp [generate_pr_email_content, hs, hb]
          | some bb =>
            cases bb with
            | false =>
              refine Or.inl ⟨?_, fallback_subject_ne_empty cfg pr now,
                fallback_body_ne_empty cfg pr now⟩
              simp [generate_pr_email_content, hs, hb]
            | true =>
              exact Or.inr ⟨j, rfl, hs, hb, by simp [generate_pr_email_content, hs, hb]⟩

/-- C10: `handle_webhook` checks the signature before parsing the body:
whenever verification fails the response is HTTP 403 (whatever the body,
malformed JSON included), and an HTTP 400 malformed-JSON response is
only ever produced after verification has succeeded. -/
theorem handle_webhook_signature_first (hf : String → String → String)
    (jp : String → Option WebhookPayload) (secret : Option String)
    (sigHeader eventType payload_body now : String) :
    (verify_signature hf secret payload_body sigHeader = false →
      (handle_webhook hf jp secret sigHeader eventType payload_body now).response =
        .httpError 403 "Invalid signature") ∧
    (∀ d, (handle_webhook hf jp secret sigHeader eventType payload_body now).response =
        .httpError 400 d →
      verify_signature hf secret payload_body sigHeader = true) := by
  constructor
  · intro hv
    simp [handle_webhook, hv]
  · intro d hd
    by_cases hv : verify_signature hf secret payload_body sigHeader = true
    · exact hv
    · exfalso
      have hv' : verify_signature hf secret payload_body sigHeader = false :=
        Bool.not_eq_true _ ▸ (Bool.eq_false_iff.mpr (fun h => hv h))
      rw [show (handle_webhook hf jp secret sigHeader eventType payload_body now).response
          = .httpError 403 "Invalid signature" by simp [handle_webhook, hv']] at hd
      exact absurd hd (by simp)

/-- C10 (witness): a bad signature (configured secret, empty header)
with a body that is also malformed JSON is answered 403, not 400. -/
theorem handle_webhook_signature_first_witness :
    (handle_webhook hf0 jpNone (some "topsecret") "" "pull_request" "not json" "ts").response =
      .httpError 403 "Invalid signature" :=
  (handle_webhook_signature_first hf0 jpNone (some "topsecret") "" "pull_request"
    "not json" "ts").1 rfl
